import Mathlib

/-!
Verification of the SMLGOAPI client examples.

This file is a shallow embedding of the two Python client modules
`ai_agent_example.py` (the SMLGOAPIAgent dispatcher, discovery, demo and
interactive driver) and `thai_admin_demo.py` (the hierarchical Thai
administrative-data client).  JSON values are modelled by an inductive type,
the outcome of one HTTP call by `HttpOutcome`, and every Python exception by
an `Except String` error carrying the message text.  Each client method is a
total Lean function over the transport outcome, exactly mirroring the
source's try/except structure: a raise inside a try-block becomes an
`Except.error` that the surrounding match folds into the method's fallback
return value.
-/

/-- JSON values as returned by response.json(); numbers are modelled as
integers (the claims only compute with integer-valued fields). -/
inductive Json where
  | null : Json
  | bool : Bool → Json
  | num : Int → Json
  | str : String → Json
  | arr : List Json → Json
  | obj : List (String × Json) → Json

/-- Python truthiness of a JSON value: None, False, 0, the empty string, the
empty list and the empty dict are falsy. -/
def Json.truthy : Json → Bool
  | .null => false
  | .bool b => b
  | .num n => n != 0
  | .str s => s != ""
  | .arr l => !l.isEmpty
  | .obj l => !l.isEmpty

/-- Truthiness of a dict.get result (a missing key gives None, falsy). -/
def optTruthy : Option Json → Bool
  | none => false
  | some j => j.truthy

/-- One-argument dict.get(key): returns None when the key is absent; raises
AttributeError when the receiver is not a dict. -/
def Json.pyGet : Json → String → Except String (Option Json)
  | .obj kvs, key => .ok (kvs.lookup key)
  | _, _ => .error "AttributeError: object has no attribute get"

/-- Two-argument dict.get(key, default): the default applies only when the
key is absent (a key bound to null still returns null); raises
AttributeError when the receiver is not a dict. -/
def Json.pyGetD : Json → String → Json → Except String Json
  | .obj kvs, key, dflt => .ok ((kvs.lookup key).getD dflt)
  | _, _, _ => .error "AttributeError: object has no attribute get"

/-- dict.keys(): raises AttributeError on a non-dict receiver. -/
def Json.pyKeys : Json → Except String (List String)
  | .obj kvs => .ok (kvs.map Prod.fst)
  | _ => .error "AttributeError: object has no attribute keys"

/-- Python len(): defined for strings, lists and dicts; raises TypeError
otherwise. -/
def pyLen : Json → Except String Nat
  | .str s => .ok s.length
  | .arr l => .ok l.length
  | .obj kvs => .ok kvs.length
  | _ => .error "TypeError: object has no len"

/-- Python slicing value[:n]: defined for lists and strings; raises
TypeError otherwise (in particular on a dict). -/
def pySlice : Json → Nat → Except String (List Json)
  | .arr l, n => .ok (l.take n)
  | .str s, n => .ok ((s.toList.take n).map fun c => Json.str c.toString)
  | _, _ => .error "TypeError: value cannot be sliced"

/-- Python indexing value[0]: head of a list (IndexError when empty), first
character of a string, KeyError on a dict (the decoded keys are strings, so
the integer key 0 is never present), TypeError otherwise. -/
def pyIndex0 : Json → Except String Json
  | .arr (h :: _) => .ok h
  | .arr [] => .error "IndexError: list index out of range"
  | .str s =>
    match s.toList with
    | c :: _ => .ok (Json.str c.toString)
    | [] => .error "IndexError: string index out of range"
  | .obj _ => .error "KeyError: 0"
  | _ => .error "TypeError: object is not subscriptable"

/-- Python format(x, ".2f") as used in the log lines: succeeds for numbers
(bools are ints in Python); raises TypeError for None, strings, lists and
dicts. -/
def fmt2f : Json → Except String Unit
  | .num _ => .ok ()
  | .bool _ => .ok ()
  | _ => .error "TypeError: unsupported format string"

/-- Python iterability for a for-loop: strings, lists and dicts iterate;
numbers, bools and None raise TypeError. -/
def pyIterable : Json → Bool
  | .str _ => true
  | .arr _ => true
  | .obj _ => true
  | _ => false

/-- Outcome of one HTTP call as seen through the requests library: either
the call itself raised (network error, carrying the exception message), or a
response arrived with a status code and a body that either decodes to JSON
or raises on response.json() (carrying the decode-error message). -/
inductive HttpOutcome where
  | exn (msg : String)
  | response (status : Nat) (body : Except String Json)

/-- requests.Response.raise_for_status: raises HTTPError exactly when the
status code is a 4xx or 5xx. -/
def raiseForStatus (status : Nat) : Except String Unit :=
  if 400 ≤ status ∧ status < 600 then .error "HTTPError" else .ok ()

/-- The shared fetch prefix of every client method: the HTTP call may raise,
then raise_for_status, then response.json(). -/
def tryFetch : HttpOutcome → Except String Json
  | .exn msg => .error msg
  | .response status body =>
    match raiseForStatus status with
    | .error e => .error e
    | .ok _ => body

/-- Transport-level failure: the HTTP call raised, the body failed to
decode, or the status code is a 4xx/5xx error. -/
def HttpOutcome.isTransportFailure : HttpOutcome → Bool
  | .exn _ => true
  | .response _ (.error _) => true
  | .response status (.ok _) => decide (400 ≤ status ∧ status < 600)

/-- The exception messages carried by an outcome are non-empty (true of
every message the requests library and the json decoder produce). -/
def HttpOutcome.msgsNonempty : HttpOutcome → Bool
  | .exn msg => msg != ""
  | .response _ (.error msg) => msg != ""
  | .response _ (.ok _) => true

/-- Whether an Except-modelled computation raised. -/
def isErrorE {α : Type} : Except String α → Bool
  | .error _ => true
  | .ok _ => false

/-- The except-branch return value of the dispatcher operations in
ai_agent_example.py: a dict with success False and error str(e). -/
def errDict (e : String) : Json :=
  Json.obj [("success", Json.bool false), ("error", Json.str e)]

/-- An HTTP request issued by the client: method, path and JSON payload. -/
structure Request where
  method : String
  path : String
  payload : Option Json

/-- Lookup of a key in a request JSON-object payload. -/
def Request.payloadLookup (r : Request) (k : String) : Option Json :=
  match r.payload with
  | some (.obj kvs) => kvs.lookup k
  | _ => none

/-- The mutable fields of SMLGOAPIAgent relevant to discovery
(ai_agent_example.py lines 18-21): both start as None. -/
structure AgentState where
  guide_data : Option Json
  endpoints : Option Json

/-- discover_api (ai_agent_example.py lines 23-45): always issues one
GET /guide (there is no cache check anywhere in the method), raises for
status, decodes the body, assigns guide_data, then assigns endpoints from
guide_data.get("endpoints", dict()), then lists endpoints.keys() for the log
line.  Any raise is caught and the method returns False.  The Nat component
counts the transport fetches this one call performed (always one: the GET is
issued unconditionally at the top of the try-block). -/
def discover_api (st : AgentState) (out : HttpOutcome) : AgentState × Bool × Nat :=
  match tryFetch out with
  | .error _ => (st, false, 1)
  | .ok body =>
    let st1 : AgentState := { st with guide_data := some body }
    match body.pyGetD "endpoints" (Json.obj []) with
    | .error _ => (st1, false, 1)
    | .ok eps =>
      let st2 : AgentState := { st1 with endpoints := some eps }
      match eps.pyKeys with
      | .error _ => (st2, false, 1)
      | .ok _ => (st2, true, 1)

/-- check_health (lines 47-63): GET /health, raise_for_status, decode, log
status/database/version (all gets on the same decoded dict), then compare
health_data.get("status") with the string healthy; every raise is caught and
the method returns False. -/
def check_health (out : HttpOutcome) : Bool :=
  match tryFetch out with
  | .error _ => false
  | .ok health_data =>
    match health_data.pyGet "status" with
    | .error _ => false
    | .ok st =>
      match st with
      | some (.str s) => s == "healthy"
      | _ => false

/-- The try-block body of execute_command (lines 67-85): POST, raise for
status, decode; on a truthy success read duration_ms (default 0) and format
it with .2f for the log line, else read the error field for the log line;
both branches return the decoded result. -/
def commandTry (out : HttpOutcome) : Except String Json :=
  match tryFetch out with
  | .error e => .error e
  | .ok result =>
    match result.pyGet "success" with
    | .error e => .error e
    | .ok succ =>
      if optTruthy succ then
        match result.pyGetD "duration_ms" (Json.num 0) with
        | .error e => .error e
        | .ok dur =>
          match fmt2f dur with
          | .error e => .error e
          | .ok _ => .ok result
      else
        match result.pyGet "error" with
        | .error e => .error e
        | .ok _ => .ok result

/-- execute_command (lines 65-88): returns the decoded body; on any raise
returns the dict with success False and error str(e).  The Lean function is
total: no exception escapes the dispatcher boundary. -/
def execute_command (sql_command : String) (out : HttpOutcome) : Json :=
  match sql_command, commandTry out with
  | _, .ok r => r
  | _, .error e => errDict e

/-- The try-block body of execute_select (lines 92-111): like commandTry but
the truthy branch reads row_count (default 0) and duration_ms (default 0)
and formats the duration with .2f. -/
def selectTry (out : HttpOutcome) : Except String Json :=
  match tryFetch out with
  | .error e => .error e
  | .ok result =>
    match result.pyGet "success" with
    | .error e => .error e
    | .ok succ =>
      if optTruthy succ then
        match result.pyGetD "row_count" (Json.num 0) with
        | .error e => .error e
        | .ok _ =>
          match result.pyGetD "duration_ms" (Json.num 0) with
          | .error e => .error e
          | .ok dur =>
            match fmt2f dur with
            | .error e => .error e
            | .ok _ => .ok result
      else
        match result.pyGet "error" with
        | .error e => .error e
        | .ok _ => .ok result

/-- execute_select (lines 90-115): returns the decoded body; on any raise
returns the dict with success False and error str(e). -/
def execute_select (sql_query : String) (out : HttpOutcome) : Json :=
  match sql_query, selectTry out with
  | _, .ok r => r
  | _, .error e => errDict e

/-- The try-block body of search_products (lines 119-138): POST, raise for
status, decode; on a truthy success read result.get("metadata", dict())
.get("total_found", 0), then result.get("metadata", dict())
.get("duration_ms", 0) (the source fetches metadata twice) and format the
duration with .2f; else read the error field; both branches return the
decoded result. -/
def searchTry (out : HttpOutcome) : Except String Json :=
  match tryFetch out with
  | .error e => .error e
  | .ok result =>
    match result.pyGet "success" with
    | .error e => .error e
    | .ok succ =>
      if optTruthy succ then
        match result.pyGetD "metadata" (Json.obj []) with
        | .error e => .error e
        | .ok md =>
          match md.pyGetD "total_found" (Json.num 0) with
          | .error e => .error e
          | .ok _ =>
            match result.pyGetD "metadata" (Json.obj []) with
            | .error e => .error e
            | .ok md2 =>
              match md2.pyGetD "duration_ms" (Json.num 0) with
              | .error e => .error e
              | .ok dur =>
                match fmt2f dur with
                | .error e => .error e
                | .ok _ => .ok result
      else
        match result.pyGet "error" with
        | .error e => .error e
        | .ok _ => .ok result

/-- search_products (lines 117-142): returns the decoded body; on any raise
returns the dict with success False and error str(e). -/
def search_products (search_term : String) (limit : Int) (out : HttpOutcome) : Json :=
  match search_term, limit, searchTry out with
  | _, _, .ok r => r
  | _, _, .error e => errDict e

/-- The transport calls issued by one search_products(term, limit) call
(lines 122-127): the payload is built and POSTed unconditionally; the
function contains no local check of the limit argument. -/
def search_products_requests (search_term : String) (limit : Int) : List Request :=
  [⟨"POST", "/search",
    some (Json.obj [("query", Json.str search_term), ("limit", Json.num limit)])⟩]

/-- The transport call issued by get_provinces (thai_admin_demo.py line 30). -/
def get_provinces_request : Request :=
  ⟨"POST", "/get/provinces", some (Json.obj [])⟩

/-- The transport call issued by get_amphures (lines 47-48): the payload
carries the province_id argument, unchanged. -/
def get_amphures_request (province_id : Int) : Request :=
  ⟨"POST", "/get/amphures", some (Json.obj [("province_id", Json.num province_id)])⟩

/-- The transport call issued by get_tambons (lines 65-66): the payload
always carries both identifiers together, unchanged. -/
def get_tambons_request (amphure_id province_id : Int) : Request :=
  ⟨"POST", "/get/tambons",
    some (Json.obj [("amphure_id", Json.num amphure_id),
                    ("province_id", Json.num province_id)])⟩

/-- The try-block body shared verbatim by get_provinces, get_amphures and
get_tambons (thai_admin_demo.py lines 29-39, 46-57, 64-75): POST, raise for
status, decode; on a truthy success log the message and return
data.get("data", list()); on a falsy success log the error and return the
empty list. -/
def adminTry (out : HttpOutcome) : Except String Json :=
  match tryFetch out with
  | .error e => .error e
  | .ok data =>
    match data.pyGet "success" with
    | .error e => .error e
    | .ok succ =>
      if optTruthy succ then
        match data.pyGet "message" with
        | .error e => .error e
        | .ok _ => data.pyGetD "data" (Json.arr [])
      else
        match data.pyGet "error" with
        | .error e => .error e
        | .ok _ => .ok (Json.arr [])

/-- The value each Thai-admin getter returns: the try-block result, with any
raise caught and folded into the empty list (lines 40-42, 58-60, 76-78). -/
def adminResult (out : HttpOutcome) : Json :=
  match adminTry out with
  | .ok v => v
  | .error _ => Json.arr []

/-- get_provinces (lines 27-42). -/
def get_provinces (out : HttpOutcome) : Json := adminResult out

/-- get_amphures (lines 44-60): the identifier only enters the request
payload; the response handling is adminResult. -/
def get_amphures (province_id : Int) (out : HttpOutcome) : Json :=
  match province_id with
  | _ => adminResult out

/-- get_tambons (lines 62-78): both identifiers only enter the request
payload; the response handling is adminResult. -/
def get_tambons (amphure_id province_id : Int) (out : HttpOutcome) : Json :=
  match amphure_id, province_id with
  | _, _ => adminResult out

/-- A failed dispatch as observed by the Thai-admin getters: the fetch
raised, the decoded body has no get attribute, or its success field is
falsy. -/
def dispatchFailed (out : HttpOutcome) : Bool :=
  match tryFetch out with
  | .error _ => true
  | .ok body =>
    match body.pyGet "success" with
    | .error _ => true
    | .ok s => !optTruthy s

/-- The transport operations a driver can issue, used to state traces. -/
inductive Op where
  | discoverFetch | healthFetch | tablesFetch | commandFetch | selectFetch | searchFetch
deriving DecidableEq

/-- A deterministic transport environment: the outcome each endpoint
returns when fetched during one run. -/
structure Env where
  guideOut : HttpOutcome
  healthOut : HttpOutcome
  tablesOut : HttpOutcome
  commandOut : HttpOutcome
  selectOut : HttpOutcome
  searchOut : HttpOutcome

/-- The try-block body of get_database_tables (lines 146-153): GET
/api/tables, raise for status, decode, take len() for the log line, return
the decoded value as-is in either documented shape. -/
def tablesTry (out : HttpOutcome) : Except String Json :=
  match tryFetch out with
  | .error e => .error e
  | .ok tables =>
    match pyLen tables with
    | .error e => .error e
    | .ok _ => .ok tables

/-- get_database_tables (lines 144-157): returns the decoded value; any
raise is caught and the method returns the empty list. -/
def get_database_tables (out : HttpOutcome) : Json :=
  match tablesTry out with
  | .ok t => t
  | .error _ => Json.arr []

/-- The demo table-display step (lines 185-197): a truthy dict response with
a truthy success field lists data[:5] (each item is shown by name when it is
a dict, else printed raw — neither raises); any other truthy response is
printed whole as a single line; a falsy response prints a no-tables line.
The result is the list of items displayed, or the exception an ill-shaped
data field raises while slicing. -/
def demoTablesItems (tables : Json) : Except String (List Json) :=
  match tables with
  | .obj kvs =>
    if (Json.obj kvs).truthy && optTruthy (kvs.lookup "success") then
      match (Json.obj kvs).pyGetD "data" (Json.arr []) with
      | .error e => .error e
      | .ok table_data => pySlice table_data 5
    else if (Json.obj kvs).truthy then
      .ok [Json.obj kvs]
    else
      .ok []
  | t => if t.truthy then .ok [t] else .ok []

/-- The interactive-mode tables display (lines 259-262): the items printed
by the loop over tables[:10].  Slicing raises TypeError on a dict-shaped
response; the loop's except-handler then prints the error in place of a
listing. -/
def interactiveTablesItems (tables : Json) : Except String (List Json) :=
  pySlice tables 10

/-- Demo step 3 (lines 178-181): best practices from the stored guide.
guide_data.get raises when the stored guide is None or a non-dict, the inner
.get raises when ai_agent_instructions is a non-dict, and the enumerate
for-loop raises when the extracted value is not iterable. -/
def bestPractices (st : AgentState) : Except String Json :=
  match st.guide_data with
  | none => .error "AttributeError: object has no attribute get"
  | some g =>
    match g.pyGetD "ai_agent_instructions" (Json.obj []) with
    | .error e => .error e
    | .ok instrs =>
      match instrs.pyGetD "best_practices" (Json.arr []) with
      | .error e => .error e
      | .ok bp => if pyIterable bp then .ok bp else .error "TypeError: not iterable"

/-- Demo step 5a display (lines 206-209): on a truthy success read data
(default the empty list) and, when data is truthy, show data[0]. -/
def demoSelectDisplay (result : Json) : Except String Unit :=
  match result.pyGet "success" with
  | .error e => .error e
  | .ok succ =>
    if optTruthy succ then
      match result.pyGetD "data" (Json.arr []) with
      | .error e => .error e
      | .ok data =>
        if data.truthy then
          match pyIndex0 data with
          | .error e => .error e
          | .ok _ => .ok ()
        else .ok ()
    else .ok ()

/-- Demo step 5b display (lines 215-216): only reads the success field. -/
def demoCommandDisplay (result : Json) : Except String Unit :=
  match result.pyGet "success" with
  | .error e => .error e
  | .ok _ => .ok ()

/-- Demo step 6 display (lines 222-234): on a truthy success read data
(default the empty list) and take its len(); the subsequent slice is guarded
by an isinstance-list check and the per-item gets only run on dicts, so no
later raise is possible. -/
def demoSearchDisplay (result : Json) : Except String Unit :=
  match result.pyGet "success" with
  | .error e => .error e
  | .ok succ =>
    if optTruthy succ then
      match result.pyGetD "data" (Json.arr []) with
      | .error e => .error e
      | .ok products =>
        match pyLen products with
        | .error e => .error e
        | .ok _ => .ok ()
    else .ok ()

/-- Steps 2-6 of demonstrate_capabilities (lines 169-237), reached only
after a successful discovery.  demonstrate_capabilities has no try-block of
its own, so an uncaught display exception ends the demo early; the second
component carries it.  The first component is the trace of transport
fetches issued. -/
def demoAfterDiscovery (env : Env) (st : AgentState) : List Op × Option String :=
  match check_health env.healthOut with
  | _ =>
    match bestPractices st with
    | .error e => ([.discoverFetch, .healthFetch], some e)
    | .ok _ =>
      match demoTablesItems (get_database_tables env.tablesOut) with
      | .error e => ([.discoverFetch, .healthFetch, .tablesFetch], some e)
      | .ok _ =>
        match demoSelectDisplay (execute_select "SELECT 1 as test" env.selectOut) with
        | .error e => ([.discoverFetch, .healthFetch, .tablesFetch, .selectFetch], some e)
        | .ok _ =>
          match demoCommandDisplay (execute_command "SHOW TABLES" env.commandOut) with
          | .error e =>
            ([.discoverFetch, .healthFetch, .tablesFetch, .selectFetch, .commandFetch], some e)
          | .ok _ =>
            match demoSearchDisplay (search_products "test" 3 env.searchOut) with
            | .error e =>
              ([.discoverFetch, .healthFetch, .tablesFetch, .selectFetch, .commandFetch,
                .searchFetch], some e)
            | .ok _ =>
              ([.discoverFetch, .healthFetch, .tablesFetch, .selectFetch, .commandFetch,
                .searchFetch], none)

/-- demonstrate_capabilities (lines 159-237): if discovery fails the method
prints a single fatal message and returns at once — the only transport
fetch issued is the discovery GET itself. -/
def demoRun (env : Env) : List Op × Option String :=
  if (discover_api ⟨none, none⟩ env.guideOut).2.1 = false then
    ([.discoverFetch], none)
  else
    demoAfterDiscovery env (discover_api ⟨none, none⟩ env.guideOut).1

/-- One iteration of the interactive loop (lines 248-294): the lowered,
stripped first token selects the operation, the remainder of the original
input is the argument.  Display-stage exceptions are caught by the loop's
except-handler, so only the dispatcher fetches reach the trace.  Returns
the fetches issued and whether the loop breaks. -/
def interactiveStep (env : Env) (raw : String) : List Op × Bool :=
  let s := raw.trim
  let low := s.toLower
  if low == "quit" || low == "exit" || low == "q" then
    ([], true)
  else if low == "health" then
    match check_health env.healthOut with
    | _ => ([.healthFetch], false)
  else if low == "tables" then
    match interactiveTablesItems (get_database_tables env.tablesOut) with
    | _ => ([.tablesFetch], false)
  else if low.startsWith "command " then
    match execute_command ((s.drop 8).trim) env.commandOut with
    | _ => ([.commandFetch], false)
  else if low.startsWith "select " then
    match execute_select ((s.drop 7).trim) env.selectOut with
    | _ => ([.selectFetch], false)
  else if low.startsWith "search " then
    match search_products ((s.drop 7).trim) 10 env.searchOut with
    | _ => ([.searchFetch], false)
  else
    ([], false)

/-- The interactive while-loop over a finite input script: stops at a quit
input or at the end of the script. -/
def interactiveLoop (env : Env) : List String → List Op
  | [] => []
  | input :: rest =>
    match interactiveStep env input with
    | (ops, true) => ops
    | (ops, false) => ops ++ interactiveLoop env rest

/-- interactive_mode (lines 239-294): if discovery fails the method returns
at once and the loop is never entered — the only transport fetch issued is
the discovery GET itself. -/
def interactive_mode_trace (env : Env) (inputs : List String) : List Op :=
  if (discover_api ⟨none, none⟩ env.guideOut).2.1 = false then
    [.discoverFetch]
  else
    .discoverFetch :: interactiveLoop env inputs

/-- Claim C1: for every transport failure (network error, non-JSON body,
HTTP error status), each of execute_command, execute_select and
search_products returns a dict with success False and a non-empty error
string; the Lean embedding of each operation is a total function, so no
exception escapes the dispatcher boundary. -/
theorem dispatcher_transport_failure_returns_error_result
    (cmd q term : String) (limit : Int) (out : HttpOutcome)
    (hf : out.isTransportFailure = true) (hm : out.msgsNonempty = true) :
    (∃ e, execute_command cmd out = errDict e ∧ e ≠ "") ∧
    (∃ e, execute_select q out = errDict e ∧ e ≠ "") ∧
    (∃ e, search_products term limit out = errDict e ∧ e ≠ "") := by
  have key : ∃ e, tryFetch out = .error e ∧ e ≠ "" := by
    cases out with
    | exn msg =>
      refine ⟨msg, rfl, ?_⟩
      simpa [HttpOutcome.msgsNonempty] using hm
    | response status body =>
      cases body with
      | error msg =>
        by_cases hs : 400 ≤ status ∧ status < 600
        · exact ⟨"HTTPError", by simp [tryFetch, raiseForStatus, hs], by decide⟩
        · refine ⟨msg, by simp [tryFetch, raiseForStatus, hs], ?_⟩
          simpa [HttpOutcome.msgsNonempty] using hm
      | ok b =>
        have hs : 400 ≤ status ∧ status < 600 := by
          simpa [HttpOutcome.isTransportFailure] using hf
        exact ⟨"HTTPError", by simp [tryFetch, raiseForStatus, hs], by decide⟩
  obtain ⟨e, he, hne⟩ := key
  refine ⟨⟨e, ?_, hne⟩, ⟨e, ?_, hne⟩, ⟨e, ?_, hne⟩⟩ <;>
    simp [execute_command, execute_select, search_products,
      commandTry, selectTry, searchTry, he]

/-- Witness for C1 at a concrete network failure. -/
theorem dispatcher_transport_failure_witness :
    (∃ e, execute_command "SHOW TABLES" (.exn "connection refused") = errDict e ∧ e ≠ "") ∧
    (∃ e, execute_select "SELECT 1" (.exn "connection refused") = errDict e ∧ e ≠ "") ∧
    (∃ e, search_products "test" 3 (.exn "connection refused") = errDict e ∧ e ≠ "") :=
  dispatcher_transport_failure_returns_error_result "SHOW TABLES" "SELECT 1" "test" 3
    (.exn "connection refused") (by decide) (by decide)

/-- A successful /search response body with the given data records,
total_found and duration_ms metadata. -/
def searchBody (recs : List Json) (total_found duration_ms : Int) : Json :=
  Json.obj [("success", Json.bool true), ("data", Json.arr recs),
    ("metadata", Json.obj [("total_found", Json.num total_found),
      ("duration_ms", Json.num duration_ms)])]

/-- Claim C2 counterexample: with limit 0 (≤ 0) search_products still issues
its POST to /search (one transport call, not zero) and does not fail
locally — on a successful service response it returns the service body, not
a validation error. -/
theorem search_limit_zero_still_posts_cex :
    search_products_requests "test" 0 ≠ [] ∧
    search_products "test" 0 (.response 200 (.ok (searchBody [] 0 5))) =
      searchBody [] 0 5 := by
  exact ⟨fun h => List.noConfusion h, rfl⟩

/-- Claim C2 (amended): search_products performs no local validation of
limit — for every term and every limit ≤ 0 it still issues exactly one
transport call, a POST to /search whose payload carries the limit
unchanged. -/
theorem search_no_local_limit_validation (search_term : String) (limit : Int)
    (h : limit ≤ 0) :
    (search_products_requests search_term limit).length = 1 ∧
    (search_products_requests search_term limit).head? = some
      ⟨"POST", "/search", some (Json.obj [("query", Json.str search_term),
        ("limit", Json.num limit)])⟩ := by
  exact ⟨rfl, rfl⟩

/-- Witness for the amended C2 at term test, limit 0. -/
theorem search_no_local_limit_validation_witness :
    (search_products_requests "test" 0).length = 1 ∧
    (search_products_requests "test" 0).head? = some
      ⟨"POST", "/search", some (Json.obj [("query", Json.str "test"),
        ("limit", Json.num 0)])⟩ :=
  search_no_local_limit_validation "test" 0 (by decide)

/-- A well-formed /guide response: 200 with a decodable descriptor whose
endpoints field is a dict. -/
def goodGuideOut : HttpOutcome :=
  .response 200 (.ok (Json.obj [("api_name", Json.str "SMLGOAPI"),
    ("version", Json.str "1.0"),
    ("endpoints", Json.obj [("health", Json.obj []), ("select", Json.obj [])])]))

/-- Claim C3 counterexample: with a well-formed guide response, two calls to
discover_api perform two transport fetches, not at most one — the method
has no cache check and re-fetches on every call. -/
theorem discover_twice_refetches_cex :
    ¬ ((discover_api ⟨none, none⟩ goodGuideOut).2.2 +
       (discover_api (discover_api ⟨none, none⟩ goodGuideOut).1 goodGuideOut).2.2 ≤ 1) := by
  decide

/-- Claim C3 (amended): every call to discover_api performs exactly one
transport fetch (there is no caching, so a second call re-fetches rather
than returning a cached descriptor); the calls are nevertheless idempotent
on the client state — re-running discover_api from the state the first call
produced, against the same outcome, returns exactly the same state, result
and fetch count, so two calls seeing identical responses yield identical
descriptors. -/
theorem discover_api_one_fetch_state_idempotent (st : AgentState) (out : HttpOutcome) :
    (discover_api st out).2.2 = 1 ∧
    discover_api (discover_api st out).1 out = discover_api st out := by
  unfold discover_api
  cases htf : tryFetch out with
  | error e => simp
  | ok body =>
    cases hep : body.pyGetD "endpoints" (Json.obj []) with
    | error e => simp [hep]
    | ok eps =>
      cases hk : eps.pyKeys with
      | error e => simp [hep, hk]
      | ok ks => simp [hep, hk]

/-- Claim C4: if capability discovery fails, both the scripted demo and the
interactive driver terminate at once — the transport trace is exactly the
discovery fetch, so no health, tables, command, select or search operation
is ever issued afterwards. -/
theorem discovery_failure_halts_session (env : Env) (inputs : List String)
    (hfail : (discover_api ⟨none, none⟩ env.guideOut).2.1 = false) :
    (demoRun env).1 = [Op.discoverFetch] ∧
    interactive_mode_trace env inputs = [Op.discoverFetch] := by
  constructor <;> simp [demoRun, interactive_mode_trace, hfail]

/-- An environment in which every endpoint is unreachable. -/
def unreachableEnv : Env :=
  ⟨.exn "connection refused", .exn "connection refused", .exn "connection refused",
   .exn "connection refused", .exn "connection refused", .exn "connection refused"⟩

/-- Witness for C4: with the service unreachable at discovery time, the demo
and an interactive session that would ask for health and tables both issue
only the discovery fetch. -/
theorem discovery_failure_halts_session_witness :
    (demoRun unreachableEnv).1 = [Op.discoverFetch] ∧
    interactive_mode_trace unreachableEnv ["health", "tables", "search test"] =
      [Op.discoverFetch] :=
  discovery_failure_halts_session unreachableEnv ["health", "tables", "search test"] rfl

/-- On any failed dispatch — transport failure, undecodable-shape body or a
falsy success field — the shared Thai-admin result handler returns the
empty list. -/
theorem adminResult_failed (out : HttpOutcome) (h : dispatchFailed out = true) :
    adminResult out = Json.arr [] := by
  unfold dispatchFailed at h
  unfold adminResult adminTry
  cases htf : tryFetch out with
  | error e => simp
  | ok body =>
    rw [htf] at h
    cases body with
    | obj kvs =>
      simp only [Json.pyGet] at h ⊢
      simp only [Bool.not_eq_true'] at h
      simp [h]
    | null => simp [Json.pyGet]
    | bool b => simp [Json.pyGet]
    | num n => simp [Json.pyGet]
    | str s => simp [Json.pyGet]
    | arr l => simp [Json.pyGet]

/-- Claim C5 counterexample: a transport failure and a successful fetch of
zero records both return the empty list — the two are indistinguishable to
the caller, and neither is a Result value carrying success false. -/
theorem admin_failure_indistinguishable_cex :
    get_provinces (.exn "connection refused") =
      get_provinces (.response 200 (.ok (Json.obj [("success", Json.bool true),
        ("message", Json.str "Retrieved 0 provinces"), ("data", Json.arr [])]))) := by
  rfl

/-- Claim C5 (amended): a failure at any level of the hierarchical client —
transport failure or service-reported failure — makes get_provinces,
get_amphures and get_tambons return the empty list rather than raising; the
empty list is, however, the same value a successful fetch of zero records
returns, so failure is not distinguishable from a successful empty fetch
and no success-false Result reaches the caller. -/
theorem admin_failure_returns_empty_list (province_id amphure_id : Int)
    (out : HttpOutcome) (h : dispatchFailed out = true) :
    get_provinces out = Json.arr [] ∧
    get_amphures province_id out = Json.arr [] ∧
    get_tambons amphure_id province_id out = Json.arr [] := by
  refine ⟨?_, ?_, ?_⟩ <;> exact adminResult_failed out h

/-- Witness for the amended C5 at a concrete transport failure. -/
theorem admin_failure_returns_empty_list_witness :
    get_provinces (.exn "connection refused") = Json.arr [] ∧
    get_amphures 1 (.exn "connection refused") = Json.arr [] ∧
    get_tambons 1001 1 (.exn "connection refused") = Json.arr [] :=
  admin_failure_returns_empty_list 1 1001 (.exn "connection refused") (by decide)

/-- Claim C6: get_amphures sends exactly the given region identifier in its
request body, unchanged; get_tambons always sends both identifiers together
in one request — its payload carries exactly the two keys amphure_id and
province_id, each bound to the untransformed argument. -/
theorem hierarchy_identifiers_passed_unchanged (province_id amphure_id : Int) :
    (get_amphures_request province_id).payloadLookup "province_id" =
      some (Json.num province_id) ∧
    (get_tambons_request amphure_id province_id).payloadLookup "amphure_id" =
      some (Json.num amphure_id) ∧
    (get_tambons_request amphure_id province_id).payloadLookup "province_id" =
      some (Json.num province_id) ∧
    (get_tambons_request amphure_id province_id).payload = some
      (Json.obj [("amphure_id", Json.num amphure_id),
                 ("province_id", Json.num province_id)]) := by
  exact ⟨rfl, rfl, rfl, rfl⟩

/-- The two-state health signal check_health actually computes, written out
by outcome shape: true exactly when the transport call succeeds with a
non-error status, the body decodes to a dict, and its status field is the
string healthy. -/
def healthyOutcome : HttpOutcome → Bool
  | .exn _ => false
  | .response status body =>
    match body with
    | .error _ => false
    | .ok (.obj kvs) =>
      if 400 ≤ status ∧ status < 600 then false
      else
        match kvs.lookup "status" with
        | some (.str s) => s == "healthy"
        | _ => false
    | .ok _ => false

/-- Claim C7 counterexample: a transport failure and a reachable service
reporting a degraded status produce the same return value False — the
caller cannot tell unreachable apart from degraded-or-unknown, so
check_health is not a tri-state signal. -/
theorem check_health_conflates_failures_cex :
    check_health (.exn "connection refused") = false ∧
    check_health (.response 200 (.ok (Json.obj [("status", Json.str "degraded")]))) = false ∧
    check_health (.exn "connection refused") =
      check_health (.response 200 (.ok (Json.obj [("status", Json.str "degraded")]))) := by
  exact ⟨rfl, rfl, rfl⟩

/-- Claim C7 (amended): check_health returns a two-state Boolean signal —
true exactly when the transport call succeeds and the body's status string
is healthy; a non-healthy status and a transport failure both map to False
and are distinguishable from healthy but not from each other. -/
theorem check_health_two_state (out : HttpOutcome) :
    check_health out = healthyOutcome out := by
  cases out with
  | exn msg => rfl
  | response status body =>
    cases body with
    | error e =>
      by_cases hs : 400 ≤ status ∧ status < 600 <;>
        simp [check_health, healthyOutcome, tryFetch, raiseForStatus, hs]
    | ok b =>
      by_cases hs : 400 ≤ status ∧ status < 600
      · cases b <;>
          simp [check_health, healthyOutcome, tryFetch, raiseForStatus, hs, Json.pyGet]
      · cases b <;>
          simp [check_health, healthyOutcome, tryFetch, raiseForStatus, hs, Json.pyGet]

/-- Whether a display step completed without an uncaught exception. -/
def displayOk (r : Except String (List Json)) : Bool :=
  match r with
  | .ok _ => true
  | .error _ => false

/-- Claim C8 counterexample: a wrapped tables response — the second
documented shape — reaches the interactive driver intact through
get_database_tables, and the driver's tables[:10] slice then raises a
TypeError instead of producing a table listing. -/
theorem interactive_tables_wrapped_shape_cex :
    interactiveTablesItems (get_database_tables (.response 200 (.ok (Json.obj
      [("success", Json.bool true), ("data", Json.arr [Json.str "table1"])])))) =
    .error "TypeError: value cannot be sliced" := by
  rfl

/-- Claim C8 (amended): get_database_tables and the demo display accept both
documented response shapes — a bare sequence and a wrapped
success-plus-data object — without error, and the demo lists the wrapped
shape's records; the interactive driver, however, only produces a listing
for the bare-sequence shape: its tables[:10] slice raises a TypeError on
the wrapped-object shape, which the loop handler turns into an error
message in place of a listing. -/
theorem tables_shapes_demo_vs_interactive (bare wrapped : List Json) :
    displayOk (demoTablesItems (Json.arr bare)) = true ∧
    demoTablesItems (Json.obj [("success", Json.bool true), ("data", Json.arr wrapped)]) =
      .ok (wrapped.take 5) ∧
    interactiveTablesItems (Json.arr bare) = .ok (bare.take 10) ∧
    interactiveTablesItems
      (Json.obj [("success", Json.bool true), ("data", Json.arr wrapped)]) =
      .error "TypeError: value cannot be sliced" := by
  refine ⟨?_, rfl, rfl, rfl⟩
  cases hb : (Json.arr bare).truthy <;> simp [demoTablesItems, displayOk, hb]

/-- The record list the demo extracts from a successful search result
(line 223): result.get("data", list()). -/
def demoObservedProducts (result : Json) : Except String Nat :=
  match result.pyGetD "data" (Json.arr []) with
  | .error e => .error e
  | .ok products => pyLen products

/-- The total-found count search_products reports (line 132):
result.get("metadata", dict()).get("total_found", 0). -/
def searchReportedTotal (result : Json) : Except String Json :=
  match result.pyGetD "metadata" (Json.obj []) with
  | .error e => .error e
  | .ok md => md.pyGetD "total_found" (Json.num 0)

/-- Claim C9: for every successful search response carrying n data records
and metadata total_found m, the caller observes the n records (the demo
counts exactly the data list) and the count m as two separate values — the
body passes through search_products unchanged, the record count is the
length of data, and the reported total is m, independent of n. -/
theorem search_records_and_total_separate (term : String) (limit : Int)
    (recs : List Json) (m d : Int) :
    search_products term limit (.response 200 (.ok (searchBody recs m d))) =
      searchBody recs m d ∧
    demoObservedProducts (searchBody recs m d) = .ok recs.length ∧
    searchReportedTotal (searchBody recs m d) = .ok (Json.num m) := by
  exact ⟨rfl, rfl, rfl⟩

/-- Claim C10: discovery failure is atomic for the client state — whenever
the GET (including its status check) or the JSON decoding raises, those
raises happen before any assignment, so discover_api returns False and
leaves guide_data and endpoints exactly as they were; contrapositively, the
fields change only when the fetch-and-parse fully succeeded. -/
theorem discover_failure_preserves_state (st : AgentState) (out : HttpOutcome)
    (h : isErrorE (tryFetch out) = true) :
    (discover_api st out).1 = st ∧ (discover_api st out).2.1 = false := by
  cases htf : tryFetch out with
  | error e => simp [discover_api, htf]
  | ok body => rw [htf] at h; exact absurd h (by simp [isErrorE])

/-- Witness for C10: a network failure at discovery leaves previously stored
guide data untouched. -/
theorem discover_failure_preserves_state_witness :
    (discover_api ⟨some (Json.str "old guide"), some (Json.num 7)⟩
      (.exn "connection refused")).1 =
      ⟨some (Json.str "old guide"), some (Json.num 7)⟩ ∧
    (discover_api ⟨some (Json.str "old guide"), some (Json.num 7)⟩
      (.exn "connection refused")).2.1 = false :=
  discover_failure_preserves_state ⟨some (Json.str "old guide"), some (Json.num 7)⟩
    (.exn "connection refused") (by decide)
